import Mathlib

/-!
Shallow embedding of the order-creation and notification pipeline of the
lwg-ecommerce repository: the backend server file (its zod schemas, zone fee
table, PDF receipt builder, order-creation handler and administrative PATCH
handler) and the frontend orders route (its two payload schemas and totals
computation). External collaborators (document store, SMTP transport, the
WhatsApp HTTP API, the image upload service, the PDF rendering primitive) are
modelled as outcome oracles passed in through an environment record; JSON
numbers are modelled as rationals.
-/

namespace LwgSpec

/-- Characters kept by the first replace of normalizePhone in the frontend
orders route: decimal digits and the plus sign. -/
def keepDigitsPlus (cs : List Char) : List Char :=
  cs.filter fun c => c.isDigit || c == '+'

/-- The second replace of normalizePhone: removes one optional leading plus. -/
def stripLeadingPlus (cs : List Char) : List Char :=
  match cs with
  | '+' :: rest => rest
  | _ => cs

/-- normalizePhone from the frontend orders route: keep digits and plus signs,
strip one leading plus, and prefix a plus when anything is left. -/
def normalizePhone (s : String) : String :=
  let digits := stripLeadingPlus (keepDigitsPlus s.data)
  if digits.isEmpty then "" else String.mk ('+' :: digits)

/-- Whether a string starts with a plus sign, the startsWith check applied to
the normalized phone in both frontend contact refinements. -/
def startsWithPlus (s : String) : Bool :=
  match s.data with
  | c :: _ => c == '+'
  | [] => false

/-- isEmail from the frontend orders route: an unanchored search for one or
more non-space characters, an at sign, one or more non-space characters, a
dot, and one or more non-space characters. -/
def isEmail (s : String) : Bool :=
  let cs := s.data
  let n := cs.length
  (List.range n).any fun i =>
    (List.range n).any fun j =>
      decide (1 ≤ i) && decide (i + 2 ≤ j) && decide (j + 1 < n) &&
      (cs.getD i ' ' == '@') && (cs.getD j ' ' == '.') &&
      !(cs.getD (i - 1) ' ').isWhitespace &&
      !(cs.getD (j + 1) ' ').isWhitespace &&
      ((List.range n).all fun k =>
        !(decide (i < k) && decide (k < j)) || !(cs.getD k ' ').isWhitespace)

/-- Splits a character list at every occurrence of the given character, as the
JavaScript split method does. -/
def breakAtChar (c : Char) : List Char → List (List Char)
  | [] => [[]]
  | x :: xs =>
    let r := breakAtChar c xs
    if x == c then [] :: r
    else
      match r with
      | [] => [[x]]
      | y :: ys => (x :: y) :: ys

/-- Modelled from the zod library collaborator: the basic address pattern that
z.string().email() applies in the backend schema, simplified to a single at
sign splitting a nonempty space-free local part from a nonempty space-free
domain that contains a dot and neither starts nor ends with one. -/
def zodEmail (s : String) : Bool :=
  match breakAtChar '@' s.data with
  | [lp, dom] =>
      !lp.isEmpty && !dom.isEmpty &&
      lp.all (· != ' ') && dom.all (· != ' ') &&
      dom.contains '.' &&
      (match dom with | d :: _ => d != '.' | [] => false) &&
      (match dom.getLast? with | some d => d != '.' | none => false)
  | _ => false

/-- The strict customer-messaging guard of handleCreateOrder: the anchored
regular expression of a plus sign followed by eight to fifteen digits. -/
def e164Test (s : String) : Bool :=
  match s.data with
  | c :: rest =>
      c == '+' && rest.all Char.isDigit &&
      decide (8 ≤ rest.length) && decide (rest.length ≤ 15)
  | [] => false

/-- Declarative reading of the customer-messaging pattern: the characters of
the string are a plus sign followed by 8 to 15 digits and nothing else. -/
def e164Spec (s : String) : Prop :=
  ∃ ds : List Char,
    s.data = '+' :: ds ∧ ds.all Char.isDigit = true ∧
    8 ≤ ds.length ∧ ds.length ≤ 15

/-- The DELIVERY_ZONES table of the backend server file. -/
def DELIVERY_ZONES : List (String × ℚ) :=
  [("Pick-up (No delivery)", 0), ("Freetown (Urban)", 25),
   ("Greater Freetown", 40), ("Provinces (Major towns)", 80),
   ("Provinces (Remote)", 120)]

/-- feeFromZone: zone table lookup defaulting to zero. -/
def feeFromZone (z : String) : ℚ :=
  (DELIVERY_ZONES.lookup z).getD 0

/-- The recognized zone names, in table order. -/
def zoneNames : List String := DELIVERY_ZONES.map Prod.fst

/-- One line item of the backend ItemSchema shape. -/
structure ItemP where
  id : String
  qty : ℤ
  title : String
  price : ℚ
  image : Option String
deriving DecidableEq

/-- The raw customer info block of the backend OrderInfoSchema shape, with
optionality of the payload made explicit. -/
structure InfoP where
  name : String
  phone : Option String
  email : Option String
  payment : String
  address : String
  deliveryZone : Option String
  deliveryFee : Option ℚ
  subtotal : Option ℚ
  grandTotal : Option ℚ
  paymentDetails : Option (List (String × String))
deriving DecidableEq

/-- The raw incoming order of the backend IncomingOrderSchema shape. -/
structure IncomingP where
  id : Option String
  items : List ItemP
  total : Option ℚ
  info : InfoP
deriving DecidableEq

/-- The optional proof attachment of the backend ProofSchema shape. -/
structure ProofP where
  filename : Option String
  mime : Option String
  base64 : Option String
deriving DecidableEq

/-- ItemSchema: positive integer quantity and nonnegative price. -/
def itemValid (i : ItemP) : Bool :=
  decide (0 < i.qty) && decide (0 ≤ i.price)

/-- OrderInfoSchema of the backend server file: a name of length at least one,
a required phone of length at least seven, an optional email that is empty or
matches the address pattern, a payment of length at least one and an address
of length at least three. -/
def infoValid (i : InfoP) : Bool :=
  decide (1 ≤ i.name.length) &&
  (match i.phone with | some p => decide (7 ≤ p.length) | none => false) &&
  (match i.email with | some e => zodEmail e || e == "" | none => true) &&
  decide (1 ≤ i.payment.length) &&
  decide (3 ≤ i.address.length)

/-- IncomingOrderSchema: at least one valid item, an optional nonnegative
total and a valid info block. -/
def incomingValid (o : IncomingP) : Bool :=
  !o.items.isEmpty && o.items.all itemValid &&
  (match o.total with | some t => decide (0 ≤ t) | none => true) &&
  infoValid o.info

/-- One fractional base-36 digit as rendered by toString(36) and then
uppercased by toUpperCase. -/
def base36UpChar (d : Fin 36) : Char :=
  if d.val < 10 then Char.ofNat (48 + d.val) else Char.ofNat (55 + d.val)

/-- slice(2, 8) of the base-36 rendering of the random draw, uppercased: up to
six fractional digits. The draw is modelled by its list of fractional base-36
digits with trailing zeros omitted, exactly as toString(36) omits them without
padding, so a draw with a short terminating expansion (such as one half, whose
rendering is the two-character fraction i) contributes fewer than six
characters. -/
def genSuffix (frac : List (Fin 36)) : String :=
  ((frac.take 6).map base36UpChar).asString

/-- Reference selection of handleCreateOrder: incoming.id when truthy (a
nonempty string), else the generated LWG reference. -/
def makeRef (hint : Option String) (frac : List (Fin 36)) : String :=
  match hint with
  | some h => if h == "" then "LWG-" ++ genSuffix frac else h
  | none => "LWG-" ++ genSuffix frac

/-- A base-36 uppercase character: a decimal digit or an uppercase letter. -/
def isBase36Upper (c : Char) : Bool :=
  c.isDigit || (decide ('A' ≤ c) && decide (c ≤ 'Z'))

/-- The canonical reference and totals computed at the top of
handleCreateOrder. -/
structure Canonical where
  ref : String
  subtotal : ℚ
  deliveryFee : ℚ
  grandTotal : ℚ
deriving DecidableEq

/-- The reference and totals derivation of handleCreateOrder: the trusted
top-level total when present, else the item sum; the trusted fee when present,
else the zone table value; the trusted grand total when present, else the sum
of the two. An absent zone is read back as the empty string by the safe
getter. -/
def canonicalize (o : IncomingP) (frac : List (Fin 36)) : Canonical :=
  let ref := makeRef o.id frac
  let subtotal :=
    match o.total with
    | some t => t
    | none => (o.items.map fun i => i.price * (i.qty : ℚ)).sum
  let zone := o.info.deliveryZone.getD ""
  let deliveryFee :=
    match o.info.deliveryFee with
    | some f => f
    | none => feeFromZone zone
  let grandTotal :=
    match o.info.grandTotal with
    | some g => g
    | none => subtotal + deliveryFee
  ⟨ref, subtotal, deliveryFee, grandTotal⟩

/-- A sample valid line item used by concrete runs. -/
def sampleItem : ItemP :=
  { id := "mug-1", qty := 2, title := "Mug", price := 80, image := none }

/-- A sample valid customer info block used by concrete runs. -/
def sampleInfo : InfoP :=
  { name := "Jane Doe", phone := some "+23276123456",
    email := some "jane@example.com", payment := "Orange Money",
    address := "12 Main Street, Freetown", deliveryZone := none,
    deliveryFee := none, subtotal := none, grandTotal := none,
    paymentDetails := none }

/-- A sample valid incoming order used by concrete runs. -/
def sampleOrder : IncomingP :=
  { id := none, items := [sampleItem], total := none, info := sampleInfo }

/-- Outcome oracle for the external collaborators one create-order request
touches: the store connection state, the store write, the image upload, the
PDF build promise, the two mail sends and the two WhatsApp blocks. An error
value stands for a thrown exception or rejected promise. -/
structure Env where
  dbConnected : Bool
  createId : Except String Nat
  uploadResult : Except String (Option String)
  pdfResult : Except String Unit
  adminMailResult : Except String Unit
  customerMailResult : Except String Unit
  adminWaResult : Except String Unit
  customerWaResult : Except String Unit
  randFrac : List (Fin 36)

/-- One side-effect channel of the create-order pipeline. -/
inductive Channel
  | upload
  | persist
  | pdf
  | adminEmail
  | customerEmail
  | adminWa
  | customerWa
deriving DecidableEq

/-- A recorded side-effect attempt and whether it succeeded. -/
structure Attempt where
  channel : Channel
  ok : Bool
deriving DecidableEq

/-- The JSON responses handleCreateOrder can produce: the 200 success body
with reference, persisted id and proof URL, or the 400 body of the catch
clause. -/
inductive Resp
  | okCreated (ref : String) (id : Option Nat) (proofUrl : Option String)
  | badRequest (error : String)
deriving DecidableEq

/-- Whether an oracle outcome is a success. -/
def exOk {ε α : Type} (e : Except ε α) : Bool :=
  match e with
  | .ok _ => true
  | .error _ => false

/-- A success value as an option. -/
def exToOption {ε α : Type} (e : Except ε α) : Option α :=
  match e with
  | .ok a => some a
  | .error _ => none

/-- Whether the proof attachment carries truthy base64 and mime fields, the
condition checked before uploadProofToCloudinary is called. -/
def proofHasData (proof : Option ProofP) : Bool :=
  match proof with
  | some p => p.base64.getD "" != "" && p.mime.getD "" != ""
  | none => false

/-- The proof URL the handler ends up with: none unless upload data was
present and the upload call returned a URL; an upload exception is swallowed
by the inner try. -/
def proofUrlOf (env : Env) (proof : Option ProofP) : Option String :=
  if proofHasData proof then
    match env.uploadResult with
    | .ok u => u
    | .error _ => none
  else none

/-- The persisted document id: the write only happens when the store
connection is up, and saved stays null otherwise. -/
def savedOf (env : Env) : Option Nat :=
  if env.dbConnected then exToOption env.createId else none

/-- The receipt build plus the four notification blocks of handleCreateOrder,
in source order. The guards are the email truthiness check and the strict
phone pattern; every block is wrapped in its own try and catch, so its outcome
is recorded but never alters control flow. -/
def notifyAttempts (env : Env) (o : IncomingP) : List Attempt :=
  let email := o.info.email.getD ""
  let phone := o.info.phone.getD ""
  [⟨Channel.pdf, exOk env.pdfResult⟩,
   ⟨Channel.adminEmail, exOk env.adminMailResult⟩]
  ++ (if email != "" then [⟨Channel.customerEmail, exOk env.customerMailResult⟩] else [])
  ++ [⟨Channel.adminWa, exOk env.adminWaResult⟩]
  ++ (if phone != "" && e164Test phone then [⟨Channel.customerWa, exOk env.customerWaResult⟩] else [])

/-- handleCreateOrder of the backend server file. Validation failure and any
exception escaping the outer try fall to the catch clause that answers 400
with ok false; the store write is the one awaited call not wrapped in an
inner try, so its exception takes that path too, while the write is skipped
entirely when the connection is down. The attempt list records which
side-effect calls ran and how they fared. -/
def handleCreateOrder (env : Env) (o : IncomingP) (proof : Option ProofP) :
    Resp × List Attempt :=
  if incomingValid o then
    let c := canonicalize o env.randFrac
    let ev0 : List Attempt :=
      if proofHasData proof then [⟨Channel.upload, exOk env.uploadResult⟩] else []
    if env.dbConnected then
      match env.createId with
      | .error e => (Resp.badRequest e, ev0 ++ [⟨Channel.persist, false⟩])
      | .ok n =>
          (Resp.okCreated c.ref (some n) (proofUrlOf env proof),
           ev0 ++ [⟨Channel.persist, true⟩] ++ notifyAttempts env o)
    else
      (Resp.okCreated c.ref none (proofUrlOf env proof),
       ev0 ++ notifyAttempts env o)
  else (Resp.badRequest "Invalid order", [])

/-- The channels of a run, with outcomes erased. -/
def channels (l : List Attempt) : List Channel :=
  l.map Attempt.channel

/-- The channels a successful run attempts. Outcomes appear nowhere here: the
attempted set depends only on the payload, the connection state and the proof
attachment. -/
def expectedChannels (o : IncomingP) (dbc : Bool) (proof : Option ProofP) :
    List Channel :=
  (if proofHasData proof then [Channel.upload] else [])
  ++ (if dbc then [Channel.persist] else [])
  ++ [Channel.pdf, Channel.adminEmail]
  ++ (if o.info.email.getD "" != "" then [Channel.customerEmail] else [])
  ++ [Channel.adminWa]
  ++ (if o.info.phone.getD "" != "" && e164Test (o.info.phone.getD "") then [Channel.customerWa] else [])

/-- The info block as buildInvoicePdf reads it, every field through the safe
getter with a fallback. -/
structure PdfInfo where
  name : Option String
  phone : Option String
  email : Option String
  address : Option String
  deliveryZone : Option String
  subtotal : Option ℚ
  deliveryFee : Option ℚ
  grandTotal : Option ℚ
deriving DecidableEq

/-- A stored line item as buildInvoicePdf reads it. -/
structure PdfItem where
  title : Option String
  price : Option ℚ
  qty : Option ℤ
deriving DecidableEq

/-- A stored or in-memory order as buildInvoicePdf reads it. -/
structure PdfOrder where
  ref : Option String
  createdAt : Option String
  info : PdfInfo
  items : List PdfItem
deriving DecidableEq

/-- An amount as the receipt renders it; the JavaScript number-to-string
conversion is abstracted as the rational rendering. -/
def moneyText (q : ℚ) : String :=
  "NLe " ++ toString q

/-- One item line of the receipt: the two continued text calls lay the title,
quantity and unit price out on one line. -/
def itemLine (it : PdfItem) : String :=
  it.title.getD "Item" ++ "  ×  " ++ toString (it.qty.getD 0) ++
    moneyText (it.price.getD 0)

/-- buildInvoicePdf of the backend server file, as the ordered list of text
lines laid onto the page; the date locale rendering is abstracted as the
stored timestamp text. Every optional field is read through the safe getter
and the four bill-to extras are each guarded by a truthiness check, so an
absent field contributes no line. -/
def buildInvoicePdf (o : PdfOrder) : List String :=
  let ref := o.ref.getD ""
  let name := o.info.name.getD "Customer"
  let phone := o.info.phone.getD ""
  let email := o.info.email.getD ""
  let addr := o.info.address.getD ""
  let zone := o.info.deliveryZone.getD ""
  let subtotal := o.info.subtotal.getD 0
  let deliveryFee := o.info.deliveryFee.getD 0
  let grandTotal := o.info.grandTotal.getD (subtotal + deliveryFee)
  ["LWG Partners Network", "Creating Impact Globally",
   "Invoice / Order Receipt", "Ref: " ++ ref,
   "Date: " ++ o.createdAt.getD "now", "Bill To:", name]
  ++ (if phone = "" then [] else [phone])
  ++ (if email = "" then [] else [email])
  ++ (if addr = "" then [] else [addr])
  ++ (if zone = "" then [] else ["Delivery: " ++ zone])
  ++ ["Items"]
  ++ o.items.map itemLine
  ++ ["Subtotal" ++ moneyText subtotal,
      "Delivery" ++ moneyText deliveryFee,
      "Total" ++ moneyText grandTotal]
  ++ ["Thank you for your purchase!"]

/-- A stored order as the administrative PATCH handler returns it. -/
structure StoredOrder where
  ref : String
  name : String
  email : Option String
  status : String
  paymentStatus : String
deriving DecidableEq

/-- Outcome oracle for the PATCH handler: the findByIdAndUpdate call (an error
is a thrown store interaction, ok none an unknown id, ok some the updated
document), the receipt re-render and the customer mail send. -/
structure PatchEnv where
  updateResult : Except String (Option StoredOrder)
  pdfResult : Except String Unit
  mailResult : Except String Unit

/-- The responses of the PATCH route: 200 with the updated order, 404 for an
unknown id, 500 from the catch clause. -/
inductive PatchResp
  | okUpdated (order : StoredOrder)
  | notFound
  | serverError
deriving DecidableEq

/-- The set patch built by the typeof string checks on status and
paymentStatus. -/
def mkUpdate (status pstatus : Option String) : List (String × String) :=
  (match status with | some s => [("status", s)] | none => [])
  ++ (match pstatus with | some p => [("paymentStatus", p)] | none => [])

/-- The administrative PATCH handler of the backend server file. The stored
update runs first and unguarded: a thrown store call reaches the catch clause
and answers 500, a null document answers 404. After a successful update the
customer email block (entered only for a truthy stored email and a nonempty
change list) is wrapped in its own try and catch, so the 200 response with the
updated order does not depend on the re-render or send outcome. The boolean
records whether the email block was entered. -/
def handleAdminPatch (env : PatchEnv) (status pstatus : Option String) :
    PatchResp × Bool :=
  match env.updateResult with
  | .error _ => (PatchResp.serverError, false)
  | .ok none => (PatchResp.notFound, false)
  | .ok (some o) =>
      let changed := mkUpdate status pstatus
      (PatchResp.okUpdated o, o.email.getD "" != "" && !changed.isEmpty)

/-- The raw info block of the frontend FrontOrderSchema shape. -/
structure FrontInfoP where
  name : String
  phone : Option String
  email : Option String
  payment : Option String
  address : Option String
  deliveryZone : Option String
  deliveryFee : Option ℚ
  subtotal : Option ℚ
  grandTotal : Option ℚ
  paymentDetails : Option (List (String × String))
deriving DecidableEq

/-- The raw wrapped payload of the frontend FrontOrderSchema shape. -/
structure FrontOrder where
  items : List ItemP
  total : Option ℚ
  info : FrontInfoP
deriving DecidableEq

/-- FrontLineItemSchema: nonempty id and title, positive integer quantity,
nonnegative price. -/
def frontItemValid (i : ItemP) : Bool :=
  decide (1 ≤ i.id.length) && decide (0 < i.qty) &&
  decide (1 ≤ i.title.length) && decide (0 ≤ i.price)

/-- The contact refinement shared by both frontend schemas: a truthy phone
whose normalization starts with a plus, or a truthy email matching the basic
pattern. -/
def contactRefineOk (phone email : String) : Bool :=
  (phone != "" && startsWithPlus (normalizePhone phone))
  || (email != "" && isEmail email)

/-- FrontOrderSchema checks other than the contact refinement: at least one
valid item, optional nonnegative legacy total, nonempty name and nonnegative
optional numeric fields. -/
def frontOtherValid (p : FrontOrder) : Bool :=
  !p.items.isEmpty && p.items.all frontItemValid &&
  (match p.total with | some t => decide (0 ≤ t) | none => true) &&
  decide (1 ≤ p.info.name.length) &&
  (match p.info.deliveryFee with | some f => decide (0 ≤ f) | none => true) &&
  (match p.info.subtotal with | some s => decide (0 ≤ s) | none => true) &&
  (match p.info.grandTotal with | some g => decide (0 ≤ g) | none => true)

/-- FrontOrderSchema: the field checks plus the contact refinement on the
defaulted phone and email. -/
def frontValid (p : FrontOrder) : Bool :=
  frontOtherValid p && contactRefineOk (p.info.phone.getD "") (p.info.email.getD "")

/-- The three totals of the frontend normalization. -/
structure Totals where
  subtotal : ℚ
  deliveryFee : ℚ
  grandTotal : ℚ
deriving DecidableEq

/-- computeTotalsFromFront of the frontend orders route: the supplied info
subtotal else the item sum, the defaulted fee, and the supplied info grand
total else the legacy top-level total else subtotal plus fee. -/
def computeTotalsFromFront (p : FrontOrder) : Totals :=
  let subtotal :=
    match p.info.subtotal with
    | some s => s
    | none => (p.items.map fun it => it.price * (it.qty : ℚ)).sum
  let deliveryFee := p.info.deliveryFee.getD 0
  let grandTotal :=
    match p.info.grandTotal with
    | some g => g
    | none => match p.total with | some t => t | none => subtotal + deliveryFee
  ⟨subtotal, deliveryFee, grandTotal⟩

/-- A wrapped payload with its trusted grand total replaced. -/
def setGrandTotal (p : FrontOrder) (g : ℚ) : FrontOrder :=
  { p with info := { p.info with grandTotal := some g } }

/-- One line item of the frontend FlatLineItemSchema shape. -/
structure FlatItemP where
  productId : String
  title : String
  price : ℚ
  qty : ℤ
deriving DecidableEq

/-- The raw info block of the frontend FlatOrderSchema shape. -/
structure FlatInfoP where
  name : Option String
  phone : Option String
  email : Option String
  address : Option String
  deliveryZone : Option String
  note : Option String
deriving DecidableEq

/-- The raw flat payload of the frontend FlatOrderSchema shape. -/
structure FlatOrder where
  items : List FlatItemP
  subtotal : ℚ
  deliveryZone : Option String
  deliveryFee : Option ℚ
  grandTotal : ℚ
  info : FlatInfoP
deriving DecidableEq

/-- FlatLineItemSchema: nonempty productId and title, nonnegative price,
positive integer quantity. -/
def flatItemValid (i : FlatItemP) : Bool :=
  decide (1 ≤ i.productId.length) && decide (1 ≤ i.title.length) &&
  decide (0 ≤ i.price) && decide (0 < i.qty)

/-- Math.round as applied by the flat totals refinement; its operands are
nonnegative under the schema, where JavaScript rounding is floor of the value
plus one half. -/
def jsRound (q : ℚ) : ℤ :=
  (q + 1 / 2).floor

/-- FlatOrderSchema: required nonnegative subtotal and grand total, optional
nonnegative defaulted fee, valid items, the contact refinement, and the totals
refinement comparing both sides rounded to two decimal places. -/
def flatValid (p : FlatOrder) : Bool :=
  !p.items.isEmpty && p.items.all flatItemValid &&
  decide (0 ≤ p.subtotal) &&
  (match p.deliveryFee with | some f => decide (0 ≤ f) | none => true) &&
  decide (0 ≤ p.grandTotal) &&
  contactRefineOk (p.info.phone.getD "") (p.info.email.getD "") &&
  (jsRound ((p.subtotal + p.deliveryFee.getD 0) * 100) == jsRound (p.grandTotal * 100))

/-- An environment whose store is connected but whose write throws. -/
def failingStoreEnv : Env :=
  { dbConnected := true, createId := Except.error "connection lost",
    uploadResult := Except.ok none, pdfResult := Except.ok (),
    adminMailResult := Except.ok (), customerMailResult := Except.ok (),
    adminWaResult := Except.ok (), customerWaResult := Except.ok (),
    randFrac := [] }

/-- An environment whose store connection is down. -/
def degradedEnv : Env :=
  { failingStoreEnv with dbConnected := false }

/-- An environment where persistence succeeds but every notification
collaborator fails. -/
def notifFailEnv : Env :=
  { dbConnected := true, createId := Except.ok 7,
    uploadResult := Except.error "upload down",
    pdfResult := Except.error "render failed",
    adminMailResult := Except.error "smtp down",
    customerMailResult := Except.error "smtp down",
    adminWaResult := Except.error "wa down",
    customerWaResult := Except.error "wa down", randFrac := [] }

/-- The sample order with its items removed. -/
def emptyItemsOrder : IncomingP :=
  { sampleOrder with items := [] }

/-- The sample order with the phone removed and only the valid email left. -/
def emailOnlyOrder : IncomingP :=
  { sampleOrder with info := { sampleInfo with phone := none } }

/-- A wrapped frontend payload carrying a valid email and no phone. -/
def frontEmailOnly : FrontOrder :=
  { items := [sampleItem], total := none,
    info := { name := "Jane Doe", phone := none,
              email := some "jane@example.com", payment := none,
              address := none, deliveryZone := none, deliveryFee := none,
              subtotal := none, grandTotal := none, paymentDetails := none } }

/-- A valid flat payload whose totals add up. -/
def flatSample : FlatOrder :=
  { items := [{ productId := "mug-1", title := "Mug", price := 80, qty := 2 }],
    subtotal := 160, deliveryZone := some "Greater Freetown",
    deliveryFee := some 40, grandTotal := 200,
    info := { name := some "Jane Doe", phone := none,
              email := some "jane@example.com", address := none,
              deliveryZone := none, note := none } }

/-- A stored order returned by a successful administrative update. -/
def storedSample : StoredOrder :=
  { ref := "LWG-TEST01", name := "Jane Doe",
    email := some "jane@example.com", status := "Shipped",
    paymentStatus := "Paid" }

/-- A patch environment whose update succeeds while the re-render and the
customer mail both fail. -/
def patchEnvOk : PatchEnv :=
  { updateResult := Except.ok (some storedSample),
    pdfResult := Except.error "render failed",
    mailResult := Except.error "smtp down" }

/-- C3: for every accepted payload the canonical subtotal is the trusted total
when present and otherwise the item sum, the delivery fee is the trusted fee
when present and otherwise the static zone table value (Greater Freetown maps
to 40 and any unrecognized or absent zone to 0), and the grand total is the
trusted total when present and otherwise subtotal plus delivery fee. -/
theorem c3_canonical_totals (o : IncomingP) (frac : List (Fin 36))
    (hv : incomingValid o = true) :
    (∀ t, o.total = some t → (canonicalize o frac).subtotal = t)
  ∧ (o.total = none →
      (canonicalize o frac).subtotal =
        (o.items.map fun i => i.price * (i.qty : ℚ)).sum)
  ∧ (∀ f, o.info.deliveryFee = some f → (canonicalize o frac).deliveryFee = f)
  ∧ (o.info.deliveryFee = none →
      (canonicalize o frac).deliveryFee =
        feeFromZone (o.info.deliveryZone.getD ""))
  ∧ feeFromZone "Greater Freetown" = 40
  ∧ (∀ z, z ∉ zoneNames → feeFromZone z = 0)
  ∧ (o.info.deliveryZone = none → feeFromZone (o.info.deliveryZone.getD "") = 0)
  ∧ (∀ g, o.info.grandTotal = some g → (canonicalize o frac).grandTotal = g)
  ∧ (o.info.grandTotal = none →
      (canonicalize o frac).grandTotal =
        (canonicalize o frac).subtotal + (canonicalize o frac).deliveryFee) := by
  refine ⟨?_, ?_, ?_, ?_, ?_, ?_, ?_, ?_, ?_⟩
  · intro t ht; simp [canonicalize, ht]
  · intro ht; simp [canonicalize, ht]
  · intro f hf; simp [canonicalize, hf]
  · intro hf; simp [canonicalize, hf]
  · decide
  · intro z hz
    simp only [zoneNames, DELIVERY_ZONES, List.map_cons, List.map_nil,
      List.mem_cons, List.not_mem_nil, or_false, not_or] at hz
    obtain ⟨h1, h2, h3, h4, h5⟩ := hz
    have e1 : (z == "Pick-up (No delivery)") = false := beq_eq_false_iff_ne.mpr h1
    have e2 : (z == "Freetown (Urban)") = false := beq_eq_false_iff_ne.mpr h2
    have e3 : (z == "Greater Freetown") = false := beq_eq_false_iff_ne.mpr h3
    have e4 : (z == "Provinces (Major towns)") = false := beq_eq_false_iff_ne.mpr h4
    have e5 : (z == "Provinces (Remote)") = false := beq_eq_false_iff_ne.mpr h5
    simp [feeFromZone, DELIVERY_ZONES, List.lookup, e1, e2, e3, e4, e5]
  · intro hz; simp only [hz, Option.getD_none]; decide
  · intro g hg; simp [canonicalize, hg]
  · intro hg
    cases ht : o.total <;> cases hf : o.info.deliveryFee <;>
      simp [canonicalize, hg, ht, hf]

/-- C3 witness: the sample order supplies no trusted totals, so its canonical
grand total is its subtotal plus its delivery fee. -/
theorem c3_canonical_totals_witness :
    (canonicalize sampleOrder []).grandTotal =
      (canonicalize sampleOrder []).subtotal +
        (canonicalize sampleOrder []).deliveryFee :=
  (c3_canonical_totals sampleOrder [] (by decide)).2.2.2.2.2.2.2.2 rfl

/-- The customer-messaging guard collapses to the pattern test alone, since
the pattern already forces a nonempty string. -/
theorem phoneGuard_eq (p : String) :
    (p != "" && e164Test p) = e164Test p := by
  by_cases h : p = ""
  · subst h; decide
  · simp [bne, h]

/-- A run whose store write does not throw: the response carries the
reference, persisted id and proof URL, and the attempt list is the upload and
persist prefixes followed by the notification blocks. -/
theorem handleCreateOrder_run (env : Env) (o : IncomingP)
    (proof : Option ProofP) (hv : incomingValid o = true)
    (hp : env.dbConnected = true → exOk env.createId = true) :
    handleCreateOrder env o proof =
      (Resp.okCreated (makeRef o.id env.randFrac) (savedOf env)
        (proofUrlOf env proof),
       (if proofHasData proof then [⟨Channel.upload, exOk env.uploadResult⟩] else [])
       ++ (if env.dbConnected then [⟨Channel.persist, true⟩] else [])
       ++ notifyAttempts env o) := by
  cases hdb : env.dbConnected with
  | false => simp [handleCreateOrder, hv, hdb, savedOf, canonicalize]
  | true =>
    cases hc : env.createId with
    | error e =>
      exfalso
      have h := hp hdb
      rw [hc] at h
      simp [exOk] at h
    | ok n =>
      simp [handleCreateOrder, hv, hdb, hc, savedOf, exToOption, canonicalize,
        List.append_assoc]

/-- The channels of a run whose store write does not throw. -/
theorem channels_run (env : Env) (o : IncomingP) (proof : Option ProofP)
    (hv : incomingValid o = true)
    (hp : env.dbConnected = true → exOk env.createId = true) :
    channels (handleCreateOrder env o proof).2 =
      expectedChannels o env.dbConnected proof := by
  rw [handleCreateOrder_run env o proof hv hp]
  simp only [channels, expectedChannels, notifyAttempts, List.map_append,
    apply_ite (List.map Attempt.channel), List.map_cons, List.map_nil,
    List.append_assoc]

/-- The anchored customer-messaging pattern agrees with its declarative
reading: a plus sign followed by 8 to 15 digits. -/
theorem e164Test_iff (s : String) : e164Test s = true ↔ e164Spec s := by
  unfold e164Test e164Spec
  cases hd : s.data with
  | nil => simp
  | cons c rest =>
    simp only [Bool.and_eq_true, beq_iff_eq, decide_eq_true_eq,
      List.cons.injEq]
    constructor
    · rintro ⟨⟨⟨hc, hdig⟩, h8⟩, h15⟩
      exact ⟨rest, ⟨hc, rfl⟩, hdig, h8, h15⟩
    · rintro ⟨ds, ⟨hc, hrest⟩, hdig, h8, h15⟩
      subst hrest
      exact ⟨⟨⟨hc, hdig⟩, h8⟩, h15⟩

/-- C1 counterexample: on a valid payload, with the store connected but the
write throwing, the handler answers 400 with the error message rather than ok
true with a null id, and no receipt or notification attempt runs — the
persistence failure is surfaced as a creation failure, contradicting the
claim's connected-write-failure case. -/
theorem c1_store_write_failure_counterexample :
    incomingValid sampleOrder = true ∧
    handleCreateOrder failingStoreEnv sampleOrder none =
      (Resp.badRequest "connection lost", [⟨Channel.persist, false⟩]) := by
  constructor
  · decide
  · decide

/-- C1 amended: when the document store is not connected, the write is
skipped, the handler still answers ok true with the order reference and a
null persisted id, and the receipt and notification pipeline still runs
against the in-memory draft; a write that throws while connected instead
propagates to the catch clause. -/
theorem c1_degraded_mode (env : Env) (o : IncomingP) (proof : Option ProofP)
    (hv : incomingValid o = true) (hdb : env.dbConnected = false) :
    (handleCreateOrder env o proof).1 =
      Resp.okCreated (makeRef o.id env.randFrac) none (proofUrlOf env proof)
  ∧ channels (handleCreateOrder env o proof).2 = expectedChannels o false proof
  ∧ Channel.adminEmail ∈ channels (handleCreateOrder env o proof).2
  ∧ Channel.adminWa ∈ channels (handleCreateOrder env o proof).2 := by
  have hp : env.dbConnected = true → exOk env.createId = true := by
    intro h; rw [hdb] at h; exact Bool.noConfusion h
  have hrun := handleCreateOrder_run env o proof hv hp
  have hch := channels_run env o proof hv hp
  rw [hdb] at hch
  refine ⟨?_, hch, ?_, ?_⟩
  · rw [hrun]; simp [savedOf, hdb]
  · rw [hch]; simp only [expectedChannels]; split_ifs <;> simp
  · rw [hch]; simp only [expectedChannels]; split_ifs <;> simp

/-- C1 witness: the degraded environment run of the sample order, through the
amended theorem. -/
theorem c1_degraded_mode_witness :
    (handleCreateOrder degradedEnv sampleOrder none).1 =
      Resp.okCreated (makeRef sampleOrder.id degradedEnv.randFrac) none
        (proofUrlOf degradedEnv none) :=
  (c1_degraded_mode degradedEnv sampleOrder none (by decide) (by decide)).1

/-- C4: on any accepted payload whose store write does not throw, the
response and the list of attempted channels are both fixed by the payload,
the connection state and the proof attachment alone — the four notification
outcomes in the environment are universally quantified and absent from both
right-hand sides, so no attempt's failure changes the ok response, prevents a
sibling attempt from starting, or is depended on by any other attempt. -/
theorem c4_notification_fanout_isolated (env : Env) (o : IncomingP)
    (proof : Option ProofP) (hv : incomingValid o = true)
    (hp : env.dbConnected = true → exOk env.createId = true) :
    (handleCreateOrder env o proof).1 =
      Resp.okCreated (makeRef o.id env.randFrac) (savedOf env)
        (proofUrlOf env proof)
  ∧ channels (handleCreateOrder env o proof).2 =
      expectedChannels o env.dbConnected proof := by
  refine ⟨?_, channels_run env o proof hv hp⟩
  rw [handleCreateOrder_run env o proof hv hp]

/-- C4 witness: the sample order against the environment where every
notification collaborator fails; persistence succeeds and the run matches the
outcome-independent description. -/
theorem c4_notification_fanout_witness :
    (handleCreateOrder notifFailEnv sampleOrder none).1 =
      Resp.okCreated (makeRef sampleOrder.id notifFailEnv.randFrac)
        (savedOf notifFailEnv) (proofUrlOf notifFailEnv none)
  ∧ channels (handleCreateOrder notifFailEnv sampleOrder none).2 =
      expectedChannels sampleOrder notifFailEnv.dbConnected none :=
  c4_notification_fanout_isolated notifFailEnv sampleOrder none (by decide)
    (fun _ => by decide)

/-- C6: on any accepted payload whose store write does not throw, the
customer instant-message attempt appears in the attempt list exactly when the
phone matches the strict pattern, and the pattern is exactly a plus sign
followed by 8 to 15 digits; a non-matching phone produces no attempt at all,
which the attempt list distinguishes from an attempted-and-failed send. -/
theorem c6_customer_wa_guard (env : Env) (o : IncomingP)
    (proof : Option ProofP) (hv : incomingValid o = true)
    (hp : env.dbConnected = true → exOk env.createId = true) :
    (Channel.customerWa ∈ channels (handleCreateOrder env o proof).2 ↔
      e164Test (o.info.phone.getD "") = true)
  ∧ (∀ s : String, e164Test s = true ↔ e164Spec s) := by
  refine ⟨?_, e164Test_iff⟩
  rw [channels_run env o proof hv hp]
  simp only [expectedChannels, phoneGuard_eq]
  by_cases h1 : proofHasData proof = true <;>
    by_cases h2 : env.dbConnected = true <;>
      by_cases h3 : (o.info.email.getD "" != "") = true <;>
        cases he : e164Test (o.info.phone.getD "") <;>
          simp [h1, h2, h3, he]

/-- C6 witness: the sample order's phone matches the pattern, so the customer
instant-message attempt is present even though every send fails. -/
theorem c6_customer_wa_guard_witness :
    Channel.customerWa ∈
      channels (handleCreateOrder notifFailEnv sampleOrder none).2 :=
  (c6_customer_wa_guard notifFailEnv sampleOrder none (by decide)
    (fun _ => by decide)).1.mpr (by decide)

/-- C8: a payload with an empty items array fails validation in every
environment — the backend handler answers 400 with ok false and runs no
persistence, receipt or notification step, and both frontend schemas reject
it as well, regardless of every other field. -/
theorem c8_empty_items_rejected (env : Env) (o : IncomingP)
    (proof : Option ProofP) (he : o.items = []) :
    handleCreateOrder env o proof = (Resp.badRequest "Invalid order", [])
  ∧ (∀ p : FrontOrder, p.items = [] → frontValid p = false)
  ∧ (∀ f : FlatOrder, f.items = [] → flatValid f = false) := by
  refine ⟨?_, ?_, ?_⟩
  · have hv : incomingValid o = false := by simp [incomingValid, he]
    simp [handleCreateOrder, hv]
  · intro p hp; simp [frontValid, frontOtherValid, hp]
  · intro f hf; simp [flatValid, hf]

/-- C8 witness: the emptied sample order is rejected with no side-effect
attempts even in the failing-store environment. -/
theorem c8_empty_items_witness :
    handleCreateOrder failingStoreEnv emptyItemsOrder none =
      (Resp.badRequest "Invalid order", []) :=
  (c8_empty_items_rejected failingStoreEnv emptyItemsOrder none rfl).1

/-- C2 counterexample: a payload whose customer info carries a valid email
and no phone is rejected by the backend intake schema, because
OrderInfoSchema requires a phone of length at least seven unconditionally —
contradicting the claim that a valid email alone passes intake. -/
theorem c2_email_only_rejected_counterexample :
    zodEmail "jane@example.com" = true ∧
    incomingValid emailOnlyOrder = false := by
  constructor
  · decide
  · decide

/-- C2 amended: the frontend wrapped intake rejects, among payloads whose
other fields are valid, exactly those whose info lacks both a phone that
normalizes to international form and an email matching the basic pattern, so
an email-only payload passes there; the backend intake instead requires a
phone of length at least seven unconditionally, so a payload with no phone is
always rejected regardless of its email. -/
theorem c2_contact_requirement_split :
    (∀ p : FrontOrder, frontOtherValid p = true →
      (frontValid p = true ↔
        contactRefineOk (p.info.phone.getD "") (p.info.email.getD "") = true))
  ∧ (∀ o : IncomingP, o.info.phone = none → incomingValid o = false) := by
  constructor
  · intro p hother
    simp [frontValid, hother]
  · intro o hph
    simp [incomingValid, infoValid, hph]

/-- C2 witness: the email-only wrapped payload passes the frontend intake,
through the amended theorem's frontend part. -/
theorem c2_contact_requirement_witness : frontValid frontEmailOnly = true :=
  (c2_contact_requirement_split.1 frontEmailOnly (by decide)).mpr (by decide)

/-- C5: receipt building is total on the canonical order shape — for any
order, with any subset of the optional fields absent, the output always
contains the reference line, one line per item and the subtotal, delivery and
total lines, and each absent optional field contributes no line, as the
length equation shows. -/
theorem c5_receipt_total (o : PdfOrder) :
    ("Ref: " ++ o.ref.getD "") ∈ buildInvoicePdf o
  ∧ (∀ it ∈ o.items, itemLine it ∈ buildInvoicePdf o)
  ∧ ("Subtotal" ++ moneyText (o.info.subtotal.getD 0)) ∈ buildInvoicePdf o
  ∧ ("Delivery" ++ moneyText (o.info.deliveryFee.getD 0)) ∈ buildInvoicePdf o
  ∧ ("Total" ++ moneyText (o.info.grandTotal.getD
      (o.info.subtotal.getD 0 + o.info.deliveryFee.getD 0))) ∈ buildInvoicePdf o
  ∧ (buildInvoicePdf o).length =
      12 + o.items.length
      + (if o.info.phone.getD "" = "" then 0 else 1)
      + (if o.info.email.getD "" = "" then 0 else 1)
      + (if o.info.address.getD "" = "" then 0 else 1)
      + (if o.info.deliveryZone.getD "" = "" then 0 else 1) := by
  refine ⟨?_, ?_, ?_, ?_, ?_, ?_⟩
  · simp [buildInvoicePdf]
  · intro it hit
    have h : itemLine it ∈ o.items.map itemLine :=
      List.mem_map_of_mem itemLine hit
    simp only [buildInvoicePdf, List.mem_append]
    tauto
  · simp [buildInvoicePdf]
  · simp [buildInvoicePdf]
  · simp [buildInvoicePdf]
  · simp only [buildInvoicePdf, List.length_append, List.length_map,
      List.length_cons, List.length_nil, apply_ite List.length]
    split_ifs <;> omega

/-- C5 witness: the reference line of a receipt for an order missing every
optional field, through the theorem's item clause on its single item. -/
theorem c5_receipt_total_witness :
    itemLine { title := some "Mug", price := some 80, qty := some 2 } ∈
      buildInvoicePdf
        { ref := some "LWG-TEST01", createdAt := none,
          info := { name := none, phone := none, email := none,
                    address := none, deliveryZone := none, subtotal := none,
                    deliveryFee := none, grandTotal := none },
          items := [{ title := some "Mug", price := some 80, qty := some 2 }] } :=
  (c5_receipt_total _).2.1 _ (by decide)

/-- C7 counterexample: the random draw one half renders in base 36 as the
single fractional digit i, so the generated reference is LWG-I with a
one-character suffix instead of six — the slice does not pad a short
terminating expansion. -/
theorem c7_short_suffix_counterexample :
    makeRef none [(18 : Fin 36)] = "LWG-I" ∧
    ¬ (makeRef none [(18 : Fin 36)]).length = 10 := by
  constructor
  · decide
  · decide

/-- Every base-36 digit uppercases to a digit or an uppercase letter. -/
theorem base36UpChar_upper :
    ∀ d : Fin 36, isBase36Upper (base36UpChar d) = true := by
  decide

/-- C7 amended: the reference equals the supplied hint whenever a nonempty
hint is present (an empty hint is falsy and falls through to generation); a
generated reference is LWG- followed by the uppercased first fractional
base-36 digits of the draw — at most six characters, exactly six whenever the
expansion has at least six digits, and every character a base-36 uppercase
character. -/
theorem c7_reference_format :
    (∀ (h : String) (frac : List (Fin 36)), h ≠ "" → makeRef (some h) frac = h)
  ∧ (∀ frac : List (Fin 36),
      makeRef none frac = "LWG-" ++ genSuffix frac
      ∧ (genSuffix frac).length = min 6 frac.length
      ∧ (genSuffix frac).data.all isBase36Upper = true) := by
  constructor
  · intro h frac hne
    have hb : (h == "") = false := beq_eq_false_iff_ne.mpr hne
    simp [makeRef, hb]
  · intro frac
    refine ⟨rfl, ?_, ?_⟩
    · show ((frac.take 6).map base36UpChar).length = min 6 frac.length
      rw [List.length_map, List.length_take]
    · show ((frac.take 6).map base36UpChar).all isBase36Upper = true
      apply List.all_eq_true.mpr
      intro c hc
      obtain ⟨d, _, rfl⟩ := List.mem_map.mp hc
      exact base36UpChar_upper d

/-- C7 witness: a nonempty supplied hint is used verbatim as the reference,
through the amended theorem. -/
theorem c7_reference_format_witness :
    makeRef (some "ORDER-77") [] = "ORDER-77" :=
  c7_reference_format.1 "ORDER-77" [] (by decide)

/-- C9: the administrative update answers 500 when the store interaction
throws and 404 when the id is unknown, and once the stored update succeeds it
answers 200 with the updated order — the re-render and customer-mail oracles
are universally quantified and absent from the conclusion, so a throwing
receipt rebuild or change email never alters the success response. -/
theorem c9_admin_update_paths (env : PatchEnv)
    (status pstatus : Option String) :
    (∀ e, env.updateResult = Except.error e →
      (handleAdminPatch env status pstatus).1 = PatchResp.serverError)
  ∧ (env.updateResult = Except.ok none →
      (handleAdminPatch env status pstatus).1 = PatchResp.notFound)
  ∧ (∀ o, env.updateResult = Except.ok (some o) →
      (handleAdminPatch env status pstatus).1 = PatchResp.okUpdated o) := by
  refine ⟨?_, ?_, ?_⟩
  · intro e he; simp [handleAdminPatch, he]
  · intro he; simp [handleAdminPatch, he]
  · intro o ho; simp [handleAdminPatch, ho]

/-- C9 witness: with the stored update succeeding and both the re-render and
the customer email failing, the response is 200 with the updated order. -/
theorem c9_admin_update_witness :
    (handleAdminPatch patchEnvOk (some "Shipped") (some "Paid")).1 =
      PatchResp.okUpdated storedSample :=
  (c9_admin_update_paths patchEnvOk (some "Shipped") (some "Paid")).2.2
    storedSample rfl

/-- C10: a flat payload accepted by FlatOrderSchema has totals that agree
after rounding both sides to two decimal places, and one whose rounded totals
disagree is rejected regardless of every other field; the wrapped schema
performs no such check — any accepted wrapped payload stays accepted with an
arbitrary nonnegative trusted grand total substituted, which the
normalization then adopts verbatim. -/
theorem c10_flat_totals_check :
    (∀ p : FlatOrder, flatValid p = true →
      jsRound ((p.subtotal + p.deliveryFee.getD 0) * 100) =
        jsRound (p.grandTotal * 100))
  ∧ (∀ p : FlatOrder,
      jsRound ((p.subtotal + p.deliveryFee.getD 0) * 100) ≠
        jsRound (p.grandTotal * 100) → flatValid p = false)
  ∧ (∀ (p : FrontOrder) (g : ℚ), frontValid p = true → 0 ≤ g →
      frontValid (setGrandTotal p g) = true
      ∧ (computeTotalsFromFront (setGrandTotal p g)).grandTotal = g) := by
  refine ⟨?_, ?_, ?_⟩
  · intro p hv
    simp only [flatValid, Bool.and_eq_true, beq_iff_eq] at hv
    exact hv.2
  · intro p hne
    have hb : (jsRound ((p.subtotal + p.deliveryFee.getD 0) * 100) ==
        jsRound (p.grandTotal * 100)) = false := beq_eq_false_iff_ne.mpr hne
    simp [flatValid, hb]
  · intro p g hv hg
    refine ⟨?_, by simp [computeTotalsFromFront, setGrandTotal]⟩
    simp only [frontValid, frontOtherValid, setGrandTotal,
      Bool.and_eq_true] at hv ⊢
    exact ⟨⟨hv.1.1, decide_eq_true hg⟩, hv.2⟩

/-- C10 witness: the sample flat payload is accepted and its rounded totals
agree, through the theorem's first part. -/
theorem c10_flat_totals_witness :
    jsRound ((flatSample.subtotal + flatSample.deliveryFee.getD 0) * 100) =
      jsRound (flatSample.grandTotal * 100) :=
  c10_flat_totals_check.1 flatSample (by
    have harith : ((160 : ℚ) + 40) * 100 = 200 * 100 := by norm_num
    have hbeq : (jsRound (((160 : ℚ) + 40) * 100) ==
        jsRound ((200 : ℚ) * 100)) = true := by
      rw [harith]; exact beq_self_eq_true _
    show (_ && _) = true
    rw [Bool.and_eq_true]
    exact ⟨by decide, hbeq⟩)

end LwgSpec
